import Mathlib

/-!
Shallow embedding of the RepuCycle front-end (React client application).

The source consists of four view components (Navbar, Footer, Home, Quiz,
Challenge) composed under a router shell (App.jsx).  We embed:

* the render trees produced by each component, as a `Node` inductive;
* the component state that matters (the quiz answer sequence and the
  challenge list), as an `AppState` structure;
* the event handlers (`submitQuiz`, the quiz input `onChange`) and the
  router navigation, as a `step` function on `AppState` that also returns
  the list of observable side effects.
-/

/-- The two event handlers that exist anywhere in the source:
`submitQuiz` (Quiz.jsx, wired to the form `onSubmit`) and the quiz text
input `onChange` arrow function (Quiz.jsx). -/
inductive Handler where
  | submitQuizH
  | quizChangeH
deriving Repr, DecidableEq

/-- Render-tree nodes.  `elem` carries tag and className; `routerLink` is a
react-router `Link` with its `to` target; buttons carry their (optional)
`type` attribute, className and (optional) click handler; `input` carries
its `type` and (optional) change handler; `form` carries its (optional)
submit handler. -/
inductive Node where
  | text (s : String)
  | elem (tag : String) (className : String) (children : List Node)
  | routerLink (target : String) (children : List Node)
  | button (buttonType : Option String) (className : String)
      (onClick : Option Handler) (children : List Node)
  | input (inputType : String) (onChange : Option Handler)
  | form (onSubmit : Option Handler) (children : List Node)
  | img (src : String) (className : String) (alt : String)

/-- A challenge record, from Challenge (part_000):
`{ id, description, reward }`. -/
structure ChallengeRec where
  id : Nat
  description : String
  reward : Nat
deriving Repr, DecidableEq

/-- The literal passed to `useState` in the Challenge component. -/
def initialChallenges : List ChallengeRec :=
  [⟨1, "Recycle 10kg of plastic", 50⟩,
   ⟨2, "Collect and segregate organic waste", 30⟩]

/-- Application state: the current route path, the Quiz component's
`answers` state, and the Challenge component's `challenges` state. -/
structure AppState where
  path : String
  quizAnswers : List String
  challenges : List ChallengeRec
deriving Repr, DecidableEq

/-- Initial state: the app loads at `/`; Quiz starts from `useState([])`,
Challenge from `useState(initialChallenges)`. -/
def appInit : AppState :=
  { path := "/", quizAnswers := [], challenges := initialChallenges }

/-- Observable side effects a handler can request.  The source only ever
produces `consoleLog`; `persist` and `navigate` are in the vocabulary so
that their absence is a statement about the code, not about the type. -/
inductive Effect where
  | consoleLog (msg : String) (data : List String)
  | persist (key : String) (data : List String)
  | navigate (path : String)
deriving Repr, DecidableEq

def isPersist : Effect → Bool
  | .persist _ _ => true
  | _ => false

def isNavigate : Effect → Bool
  | .navigate _ => true
  | _ => false

def noPersistEffects (effs : List Effect) : Bool :=
  effs.all (fun e => !isPersist e)

def noNavigateEffects (effs : List Effect) : Bool :=
  effs.all (fun e => !isNavigate e)

/-- Running a handler.  `submitQuizH` is Quiz.jsx `submitQuiz`:
`console.log("Quiz submitted with answers: ", answers)` and nothing else.
`quizChangeH` is the input `onChange`:
`setAnswers([...answers, e.target.value])`; the optional argument is the
event target value (always present for change events). -/
def runHandler : Handler → Option String → AppState → AppState × List Effect
  | .submitQuizH, _, s =>
      (s, [.consoleLog "Quiz submitted with answers: " s.quizAnswers])
  | .quizChangeH, v, s =>
      ({ s with quizAnswers := s.quizAnswers ++ [v.getD ""] }, [])

/-- User events: a click on a button (carrying the button's `onClick`, if
any), a change event on an input (carrying its `onChange` and the field's
current value), a form submission (carrying the form's `onSubmit`), and a
client-side navigation. -/
inductive Event where
  | click (h : Option Handler)
  | change (h : Option Handler) (targetValue : String)
  | submit (h : Option Handler)
  | navigateTo (path : String)
deriving Repr, DecidableEq

/-- One event handled to completion.  An event whose element has no handler
does nothing.  Navigation changes the path; a component's `useState` state
survives only while it stays mounted: Quiz state is the initial `[]` unless
the path stays on `/quiz`, and Challenge state is the initial literal
unless the path stays on `/challenge`. -/
def step (s : AppState) : Event → AppState × List Effect
  | .click none => (s, [])
  | .click (some h) => runHandler h none s
  | .change none _ => (s, [])
  | .change (some h) v => runHandler h (some v) s
  | .submit none => (s, [])
  | .submit (some h) => runHandler h none s
  | .navigateTo p =>
      ({ path := p,
         quizAnswers :=
           if p = "/quiz" ∧ s.path = "/quiz" then s.quizAnswers else [],
         challenges :=
           if p = "/challenge" ∧ s.path = "/challenge" then s.challenges
           else initialChallenges }, [])

/-- Handling a list of events in order (states only). -/
def applyEvents (s : AppState) (evs : List Event) : AppState :=
  evs.foldl (fun st e => (step st e).1) s

/-- Typing characters into the quiz text input one at a time, starting from
field content `field`: each keystroke appends the character to the field
and fires a change event whose target value is the whole current field
content.  Returns the state and final field content. -/
def typeChars : AppState → List Char → List Char → AppState × List Char
  | s, field, [] => (s, field)
  | s, field, c :: cs =>
      typeChars
        ((step s (.change (some .quizChangeH) (String.mk (field ++ [c])))).1)
        (field ++ [c]) cs

/-- Navbar (part_000): title and three Links. -/
def navbar : Node :=
  .elem "nav" "navbar"
    [.elem "h1" "" [.text "RepuCycle"],
     .elem "ul" ""
       [.elem "li" "" [.routerLink "/" [.text "Home"]],
        .elem "li" "" [.routerLink "/quiz" [.text "Quiz"]],
        .elem "li" "" [.routerLink "/challenge" [.text "Challenges"]]]]

/-- Footer (part_000): static copyright text. -/
def footer : Node :=
  .elem "footer" "footer"
    [.elem "p" "" [.text "© 2024 RepuCycle. All Rights Reserved."]]

/-- Home view (Home.jsx): logo, heading, tagline, and a button with no
handler wired. -/
def renderHome : Node :=
  .elem "div" "home"
    [.elem "header" "home-header"
      [.img "logo.svg" "home-logo" "logo",
       .elem "h1" "" [.text "Welcome to RepuCycle"],
       .elem "p" ""
         [.text "Promoting Sustainable Waste Management with Tokenized Incentives."],
       .button none "get-started" none [.text "Get Started"]]]

/-- Quiz view (Quiz.jsx): heading, a form with the submit handler, one
label, one text input with the change handler, and a submit button. -/
def renderQuiz : Node :=
  .elem "div" "quiz-page"
    [.elem "h2" "" [.text "Waste Management Quiz"],
     .form (some .submitQuizH)
       [.elem "label" "" [.text "1. What is the most recyclable material?"],
        .input "text" (some .quizChangeH),
        .button (some "submit") "" none [.text "Submit Quiz"]]]

/-- One challenge list item (Challenge, part_000): description, reward
text, and an Accept Challenge button with no handler wired. -/
def renderChallengeItem (c : ChallengeRec) : Node :=
  .elem "li" ""
    [.text c.description, .text " - Earn ", .text (toString c.reward),
     .text " tokens",
     .button none "" none [.text "Accept Challenge"]]

/-- Challenge view (part_000): heading and the mapped challenge list. -/
def renderChallenge (challenges : List ChallengeRec) : Node :=
  .elem "div" "challenge-page"
    [.elem "h2" "" [.text "Challenges"],
     .elem "ul" "" (challenges.map renderChallengeItem)]

/-- The route table of App.jsx: path and element of each `Route`. -/
def routes (s : AppState) : List (String × Node) :=
  [("/", renderHome),
   ("/quiz", renderQuiz),
   ("/challenge", renderChallenge s.challenges)]

/-- `Routes` renders the element of the first `Route` whose path matches,
and nothing when none matches. -/
def renderRoutes (s : AppState) (path : String) : List Node :=
  match (routes s).find? (fun r => r.1 == path) with
  | some r => [r.2]
  | none => []

/-- App.jsx: Navbar, the matched route view, Footer. -/
def renderApp (s : AppState) : Node :=
  .elem "div" "App" ([navbar] ++ renderRoutes s s.path ++ [footer])

/-- Immediate children of a node. -/
def childrenOf : Node → List Node
  | .text _ => []
  | .elem _ _ cs => cs
  | .routerLink _ cs => cs
  | .button _ _ _ cs => cs
  | .input _ _ => []
  | .form _ cs => cs
  | .img _ _ _ => []

/-- All nodes reachable within `depth` levels (fuel-indexed traversal). -/
def descendants : Nat → Node → List Node
  | 0, _ => []
  | depth + 1, n => n :: (childrenOf n).flatMap (descendants depth)

/-- Is this node a heading element with the given tag whose sole child is
the given text? -/
def isHeadingNode (tag txt : String) : Node → Bool
  | .elem t _ [.text s] => t == tag && s == txt
  | _ => false

/-- Does the tree contain (within `depth` levels) a heading `tag` whose
text is `txt`? -/
def hasHeading (tag txt : String) (depth : Nat) (n : Node) : Bool :=
  (descendants depth n).any (isHeadingNode tag txt)

/-- The `to` targets of all router links in the tree, in document order. -/
def linkTargets (depth : Nat) (n : Node) : List String :=
  (descendants depth n).flatMap fun m =>
    match m with
    | .routerLink t _ => [t]
    | _ => []

/-- The `onClick` handlers of all buttons in the tree whose label is
exactly the given text, in document order. -/
def buttonsLabeled (label : String) (depth : Nat) (n : Node) :
    List (Option Handler) :=
  (descendants depth n).flatMap fun m =>
    match m with
    | .button _ _ h [.text l] => if l == label then [h] else []
    | _ => []

/-- The `onSubmit` handlers of all forms in the tree, in document order. -/
def formHandlers (depth : Nat) (n : Node) : List (Option Handler) :=
  (descendants depth n).flatMap fun m =>
    match m with
    | .form h _ => [h]
    | _ => []

/-! ## Helper lemmas -/

theorem step_preserves_challenges (s : AppState) (e : Event)
    (h : s.challenges = initialChallenges) :
    ((step s e).1).challenges = initialChallenges := by
  cases e with
  | click oh =>
      cases oh with
      | none => exact h
      | some hh => cases hh <;> simpa [step, runHandler] using h
  | change oh v =>
      cases oh with
      | none => exact h
      | some hh => cases hh <;> simpa [step, runHandler] using h
  | submit oh =>
      cases oh with
      | none => exact h
      | some hh => cases hh <;> simpa [step, runHandler] using h
  | navigateTo p =>
      simp only [step]
      split
      · exact h
      · rfl

theorem applyEvents_cons (s : AppState) (e : Event) (es : List Event) :
    applyEvents s (e :: es) = applyEvents ((step s e).1) es := by
  simp only [applyEvents, List.foldl_cons]

theorem applyEvents_challenges (s : AppState) (evs : List Event)
    (h : s.challenges = initialChallenges) :
    (applyEvents s evs).challenges = initialChallenges := by
  induction evs generalizing s with
  | nil => exact h
  | cons e es ih =>
      rw [applyEvents_cons]
      exact ih _ (step_preserves_challenges s e h)

theorem applyEvents_changes (s : AppState) (vs : List String) :
    (applyEvents s
        (vs.map (fun v => Event.change (some Handler.quizChangeH) v))).quizAnswers
      = s.quizAnswers ++ vs := by
  induction vs generalizing s with
  | nil => simp [applyEvents]
  | cons v vs ih =>
      rw [List.map_cons, applyEvents_cons]
      rw [show (step s (Event.change (some Handler.quizChangeH) v)).1
            = { s with quizAnswers := s.quizAnswers ++ [v] } from rfl]
      rw [ih]
      simp

theorem step_no_persist (s : AppState) (e : Event) :
    noPersistEffects (step s e).2 = true := by
  cases e with
  | click oh =>
      cases oh with
      | none => rfl
      | some hh => cases hh <;> rfl
  | change oh v =>
      cases oh with
      | none => rfl
      | some hh => cases hh <;> rfl
  | submit oh =>
      cases oh with
      | none => rfl
      | some hh => cases hh <;> rfl
  | navigateTo p => rfl

theorem typeChars_answers (cs : List Char) :
    ∀ (s : AppState) (field : List Char),
    ((typeChars s field cs).1).quizAnswers
      = s.quizAnswers ++
        (List.range cs.length).map (fun i => String.mk (field ++ cs.take (i + 1))) := by
  induction cs with
  | nil => intro s field; simp [typeChars]
  | cons c cs ih =>
      intro s field
      rw [typeChars, ih]
      rw [show ((step s (Event.change (some Handler.quizChangeH)
              (String.mk (field ++ [c])))).1).quizAnswers
            = s.quizAnswers ++ [String.mk (field ++ [c])] from rfl]
      rw [List.length_cons, List.range_succ_eq_map, List.map_cons, List.map_map]
      simp [Function.comp, List.append_assoc]

/-! ## Claim theorems -/

/-- C1: Submitting the quiz form leaves the whole application state
(including the route path and the answer sequence) unchanged and produces
exactly one effect, a console log of the current answer sequence; the quiz
form's submit handler is `submitQuiz`, and submission neither navigates
nor persists anything. -/
theorem quiz_submit_only_logs :
    (∀ s : AppState, step s (.submit (some .submitQuizH)) =
        (s, [Effect.consoleLog "Quiz submitted with answers: " s.quizAnswers])) ∧
    formHandlers 10 renderQuiz = [some Handler.submitQuizH] ∧
    (∀ s : AppState,
        noNavigateEffects (step s (.submit (some .submitQuizH))).2 = true ∧
        noPersistEffects (step s (.submit (some .submitQuizH))).2 = true) :=
  ⟨fun _ => rfl, rfl, fun _ => ⟨rfl, rfl⟩⟩

/-- C2: Each change event on the quiz input appends the event's target
value to the answer sequence: existing entries are preserved in order, the
length grows by exactly one, and after n change events from the initial
state the sequence holds exactly the n values in input order. -/
theorem quiz_change_appends :
    (∀ (s : AppState) (v : String),
        ((step s (.change (some .quizChangeH) v)).1).quizAnswers
          = s.quizAnswers ++ [v]) ∧
    (∀ (s : AppState) (v : String),
        ((step s (.change (some .quizChangeH) v)).1).quizAnswers.length
          = s.quizAnswers.length + 1) ∧
    (∀ vs : List String,
        (applyEvents appInit
          (vs.map (fun v => Event.change (some Handler.quizChangeH) v))).quizAnswers
        = vs) := by
  refine ⟨fun s v => rfl, fun s v => ?_, fun vs => ?_⟩
  · rw [show ((step s (Event.change (some Handler.quizChangeH) v)).1).quizAnswers
        = s.quizAnswers ++ [v] from rfl]
    simp
  · simpa using applyEvents_changes appInit vs

/-- C3: After any sequence of events from the initial state, the challenge
view renders a heading and a list of exactly two items, in declared order,
with the literal descriptions and rewards, each item carrying an inert
Accept Challenge button. -/
theorem challenge_view_renders_two_items (evs : List Event) :
    renderChallenge ((applyEvents appInit evs).challenges) =
      .elem "div" "challenge-page"
        [.elem "h2" "" [.text "Challenges"],
         .elem "ul" ""
           [.elem "li" ""
              [.text "Recycle 10kg of plastic", .text " - Earn ", .text "50",
               .text " tokens", .button none "" none [.text "Accept Challenge"]],
            .elem "li" ""
              [.text "Collect and segregate organic waste", .text " - Earn ",
               .text "30", .text " tokens",
               .button none "" none [.text "Accept Challenge"]]]] := by
  rw [applyEvents_challenges appInit evs rfl]
  rfl

/-- C4: Rendering the application at `/` shows the heading
"Welcome to RepuCycle", at `/quiz` the heading "Waste Management Quiz",
and at `/challenge` the heading "Challenges", whatever the quiz answer
state is. -/
theorem routes_render_headings (qa : List String) :
    hasHeading "h1" "Welcome to RepuCycle" 10
      (renderApp { path := "/", quizAnswers := qa,
                   challenges := initialChallenges }) = true ∧
    hasHeading "h2" "Waste Management Quiz" 10
      (renderApp { path := "/quiz", quizAnswers := qa,
                   challenges := initialChallenges }) = true ∧
    hasHeading "h2" "Challenges" 10
      (renderApp { path := "/challenge", quizAnswers := qa,
                   challenges := initialChallenges }) = true :=
  ⟨rfl, rfl, rfl⟩

/-- C5: The Get Started button on the home view and both Accept Challenge
buttons on the challenge view carry no click handler, and delivering a
click event with no handler leaves every state unchanged and produces no
effects. -/
theorem inert_buttons_no_effect :
    buttonsLabeled "Get Started" 10 renderHome = [none] ∧
    buttonsLabeled "Accept Challenge" 10 (renderChallenge initialChallenges)
      = [none, none] ∧
    (∀ s : AppState, step s (.click none) = (s, [])) :=
  ⟨rfl, rfl, fun _ => rfl⟩

/-- C6: After every sequence of events from the initial state, the
challenge view's list still equals the initial two-element literal, and no
event ever produces a persistence effect. -/
theorem challenges_list_fixed :
    (∀ evs : List Event,
        (applyEvents appInit evs).challenges =
          [⟨1, "Recycle 10kg of plastic", 50⟩,
           ⟨2, "Collect and segregate organic waste", 30⟩]) ∧
    (∀ (s : AppState) (e : Event), noPersistEffects (step s e).2 = true) :=
  ⟨fun evs => applyEvents_challenges appInit evs rfl, step_no_persist⟩

/-- C7: The quiz answer sequence is local in-memory state: the initial
state has an empty sequence, a fresh mount of the quiz view (navigating to
`/quiz` from any other path) starts it empty again, and no event ever
produces a persistence effect. -/
theorem quiz_answers_local :
    appInit.quizAnswers = [] ∧
    (∀ s : AppState, s.path ≠ "/quiz" →
        ((step s (.navigateTo "/quiz")).1).quizAnswers = []) ∧
    (∀ (s : AppState) (e : Event), noPersistEffects (step s e).2 = true) := by
  refine ⟨rfl, fun s h => ?_, step_no_persist⟩
  simp [step, h]

/-- C7 witness: from the initial state (path `/`), navigating to `/quiz`
yields an empty answer sequence. -/
theorem quiz_answers_local_witness :
    ((step appInit (Event.navigateTo "/quiz")).1).quizAnswers = [] :=
  quiz_answers_local.2.1 appInit (by decide)

/-- C8: The navigation shell renders the title heading and exactly three
router links, whose targets are exactly the three paths of the route
table, in the same order. -/
theorem navbar_links_match_router :
    linkTargets 10 navbar = ["/", "/quiz", "/challenge"] ∧
    hasHeading "h1" "RepuCycle" 10 navbar = true ∧
    (∀ s : AppState, (routes s).map Prod.fst = ["/", "/quiz", "/challenge"]) :=
  ⟨rfl, rfl, fun _ => rfl⟩

/-- C9: At any path other than `/`, `/quiz` and `/challenge`, the route
table matches nothing, so the application renders only the navigation
shell and the footer, with no page view between them. -/
theorem unknown_path_no_view (s : AppState) (path : String)
    (h1 : path ≠ "/") (h2 : path ≠ "/quiz") (h3 : path ≠ "/challenge") :
    renderRoutes s path = [] ∧
    renderApp { s with path := path } = .elem "div" "App" [navbar, footer] := by
  have e1 : (("/" : String) == path) = false :=
    beq_eq_false_iff_ne.mpr (Ne.symm h1)
  have e2 : (("/quiz" : String) == path) = false :=
    beq_eq_false_iff_ne.mpr (Ne.symm h2)
  have e3 : (("/challenge" : String) == path) = false :=
    beq_eq_false_iff_ne.mpr (Ne.symm h3)
  have hr : ∀ t : AppState, renderRoutes t path = [] := by
    intro t
    simp [renderRoutes, routes, List.find?, e1, e2, e3]
  refine ⟨hr s, ?_⟩
  simp [renderApp, hr]

/-- C9 witness: at the concrete path `/missing` the route table matches
nothing and the application renders only navbar and footer. -/
theorem unknown_path_no_view_witness :
    renderRoutes appInit "/missing" = [] ∧
    renderApp { appInit with path := "/missing" }
      = Node.elem "div" "App" [navbar, footer] :=
  unknown_path_no_view appInit "/missing" (by decide) (by decide) (by decide)

/-- C10: Each change event stores the entire current field content
verbatim, so typing a word one character at a time from an empty field
stores, in order, every successive initial segment of the word — one entry
per character typed. -/
theorem typing_accumulates_field_values (w : String) :
    (∀ (s : AppState) (v : String),
        ((step s (.change (some .quizChangeH) v)).1).quizAnswers
          = s.quizAnswers ++ [v]) ∧
    ((typeChars appInit [] w.toList).1).quizAnswers
      = (List.range w.toList.length).map
          (fun i => String.mk (w.toList.take (i + 1))) ∧
    ((typeChars appInit [] w.toList).1).quizAnswers.length = w.length := by
  refine ⟨fun s v => rfl, ?_, ?_⟩
  · simpa using typeChars_answers w.toList appInit []
  · rw [show ((typeChars appInit [] w.toList).1).quizAnswers
        = appInit.quizAnswers ++
          (List.range w.toList.length).map
            (fun i => String.mk (w.toList.take (i + 1)))
        from typeChars_answers w.toList appInit []]
    simp [appInit, String.toList, String.length_data]
